import Mathlib

/-!
Shallow embedding of the Douyin-Downloader service (src/main.py) and proofs
about its specification claims.

The program is a small FastAPI app with a pure identifier extractor
(extract_douyin_id), a resolver client (get_download_urls) and a streaming
download handler (download_douyin).  Network effects are modelled by oracles
(a `World` record of response functions); Python exceptions are modelled by
explicit error values; upstream JSON is modelled by an inductive `Json` type.
-/

/-- Python apostrophe character, used by `str(KeyError(k))` which renders the
missing key wrapped in single quotes. -/
def pyQuote : String := String.singleton (Char.ofNat 39)

/-- Models fastapi.HTTPException: an HTTP status code plus a detail string. -/
structure HTTPException where
  status_code : Nat
  detail : String
deriving Repr, DecidableEq

/-- JSON values, as produced by `response.json()` in the source. -/
inductive Json where
  | null
  | bool (b : Bool)
  | num (n : Int)
  | str (s : String)
  | arr (xs : List Json)
  | obj (kvs : List (String × Json))
deriving Repr, Inhabited

/-- Python exceptions that the parsing code in `get_download_urls` can raise:
`KeyError` from a missing dict key, `ValueError` raised explicitly for a
missing top-level key, and `TypeError` from subscripting / membership-testing
a non-container value.  Only the first two are caught by the
`except (KeyError, ValueError)` clause in the source. -/
inductive PyErr where
  | keyError (k : String)
  | valueError (msg : String)
  | typeError
deriving Repr, DecidableEq

/-- Python dict lookup for a dict built by `json.loads`: duplicate keys in the
JSON text collapse with the last occurrence winning. -/
def lookupLast : List (String × Json) → String → Option Json
  | [], _ => none
  | (k, v) :: rest, key =>
    match lookupLast rest key with
    | some r => some r
    | none => if k == key then some v else none

/-- Boolean prefix test on character lists. -/
def isPrefixOfB : List Char → List Char → Bool
  | [], _ => true
  | _ :: _, [] => false
  | a :: as, b :: bs => a == b && isPrefixOfB as bs

/-- Boolean infix (substring) test on character lists, modelling Python
`needle in haystack` for strings. -/
def isInfixB (needle : List Char) : List Char → Bool
  | [] => isPrefixOfB needle []
  | hay@(_ :: rest) => isPrefixOfB needle hay || isInfixB needle rest

/-- Python `==` between a value and a string: only equal strings compare equal. -/
def Json.eqStr : Json → String → Bool
  | .str s, k => s == k
  | _, _ => false

/-- Python `key in data` on a JSON value: key membership for dicts, element
membership for lists, substring test for strings, `TypeError` otherwise. -/
def Json.containsKey : Json → String → Except PyErr Bool
  | .obj kvs, k => .ok (kvs.any (fun kv => kv.1 == k))
  | .arr xs, k => .ok (xs.any (fun j => Json.eqStr j k))
  | .str s, k => .ok (isInfixB k.data s.data)
  | _, _ => .error .typeError

/-- Python `data[k]` on a JSON value: dict lookup (raising `KeyError` when the
key is absent), `TypeError` when the value is not a dict (a string key cannot
subscript a list, string, number, bool or None). -/
def Json.getItem : Json → String → Except PyErr Json
  | .obj kvs, k =>
    match lookupLast kvs k with
    | some v => .ok v
    | none => .error (.keyError k)
  | _, _ => .error .typeError

/-- The dict returned by `get_download_urls`: the `"video"` and `"audio"`
entries.  The values are whatever JSON values sit at the two nested paths. -/
structure DownloadUrls where
  video : Json
  audio : Json
deriving Repr

/-- The body of `get_download_urls` after `response.json()` succeeded:
checks the two top-level keys (short-circuit, raising `ValueError` when one is
absent), then builds `{"video": data["video_data"]["nwm_video_url"],
"audio": data["music_data"]["play_url"]["uri"]}`, evaluated left to right. -/
def parse_download_urls (data : Json) : Except PyErr DownloadUrls :=
  match Json.containsKey data "video_data" with
  | .error e => .error e
  | .ok false => .error (.valueError "Invalid API response structure")
  | .ok true =>
    match Json.containsKey data "music_data" with
    | .error e => .error e
    | .ok false => .error (.valueError "Invalid API response structure")
    | .ok true =>
      match Json.getItem data "video_data" with
      | .error e => .error e
      | .ok vd =>
        match Json.getItem vd "nwm_video_url" with
        | .error e => .error e
        | .ok v =>
          match Json.getItem data "music_data" with
          | .error e => .error e
          | .ok md =>
            match Json.getItem md "play_url" with
            | .error e => .error e
            | .ok pu =>
              match Json.getItem pu "uri" with
              | .error e => .error e
              | .ok a => .ok ⟨v, a⟩

/-- The upstream API request URL built by `get_download_urls`. -/
def api_url (video_id : String) : String :=
  "https://api.douyin.wtf/api?url=https://www.douyin.com/video/" ++ video_id

/-- Outcome of one resolver HTTP round trip, as seen by the code after
`requests.get` / `raise_for_status` / `response.json()`: either a parsed JSON
body, or a `requests.exceptions.RequestException` (connection failure,
timeout, or non-2xx status raised by `raise_for_status`). -/
inductive FetchResult where
  | ok (body : Json)
  | transportError (msg : String)
deriving Repr

/-- `str(KeyError(k))` in Python renders the key in single quotes. -/
def keyErrorStr (k : String) : String := pyQuote ++ k ++ pyQuote

/-- Result of a call to `get_download_urls`: a value, an `HTTPException`
raised by one of its `except` clauses, or a Python exception (a `TypeError`)
that escapes the function because no clause catches it. -/
inductive ResolveOutcome where
  | ok (urls : DownloadUrls)
  | httpExc (e : HTTPException)
  | pyRaise (e : PyErr)
deriving Repr

/-- `get_download_urls(video_id)`: one GET to the templated API URL; a
transport failure maps to HTTP 502 "API request failed", a `KeyError` or
`ValueError` while parsing maps to HTTP 502 "API response error", and a
`TypeError` escapes uncaught. -/
def get_download_urls (video_id : String) (resolver : String → FetchResult) :
    ResolveOutcome :=
  match resolver (api_url video_id) with
  | .transportError msg => .httpExc ⟨502, "API request failed: " ++ msg⟩
  | .ok data =>
    match parse_download_urls data with
    | .ok urls => .ok urls
    | .error (.keyError k) =>
      .httpExc ⟨502, "API response error: " ++ keyErrorStr k⟩
    | .error (.valueError m) => .httpExc ⟨502, "API response error: " ++ m⟩
    | .error .typeError => .pyRaise .typeError

/-- Models Python `\w` on the ASCII range: `[A-Za-z0-9_]` (the share-link
tokens the service handles are ASCII). -/
def isWordChar (c : Char) : Bool :=
  (Char.ofNat 97 ≤ c && c ≤ Char.ofNat 122) ||
  (Char.ofNat 65 ≤ c && c ≤ Char.ofNat 90) ||
  (Char.ofNat 48 ≤ c && c ≤ Char.ofNat 57) ||
  c == Char.ofNat 95

/-- Models Python `\d` on the ASCII range: `[0-9]`. -/
def isDigitChar (c : Char) : Bool :=
  Char.ofNat 48 ≤ c && c ≤ Char.ofNat 57

/-- Strip a literal character-list from the front of the input, returning
the remainder when the whole literal matches. -/
def stripLit : List Char → List Char → Option (List Char)
  | [], cs => some cs
  | _ :: _, [] => none
  | p :: ps, c :: cs => if p == c then stripLit ps cs else none

/-- Try to match, at the current position, one of the literal alternatives
followed by a greedy nonempty run of `wordP` characters (the capture group).
This is the anchored form of each source regex: a fixed literal head
(the two `https?` alternatives) followed by `(\w+)` or `(\d+)`. -/
def matchAtPos (wordP : Char → Bool) : List (List Char) → List Char → Option (List Char)
  | [], _ => none
  | p :: ps, cs =>
    match stripLit p cs with
    | some rest =>
      match rest.takeWhile wordP with
      | [] => matchAtPos wordP ps cs
      | t => some t
    | none => matchAtPos wordP ps cs

/-- `re.search` semantics for the anchored form: try every start position
from left to right and return the first (leftmost) capture. -/
def reSearch (wordP : Char → Bool) (pres : List (List Char)) : List Char → Option (List Char)
  | [] => matchAtPos wordP pres []
  | c :: rest =>
    match matchAtPos wordP pres (c :: rest) with
    | some t => some t
    | none => reSearch wordP pres rest

/-- The two literal alternatives of `https?://v\.douyin\.com/`. -/
def pat1Lits : List (List Char) :=
  [("https://v.douyin.com/").data, ("http://v.douyin.com/").data]

/-- The two literal alternatives of `https?://www\.douyin\.com/video/`. -/
def pat2Lits : List (List Char) :=
  [("https://www.douyin.com/video/").data, ("http://www.douyin.com/video/").data]

/-- The two literal alternatives of `https?://vm\.tiktok\.com/`. -/
def pat3Lits : List (List Char) :=
  [("https://vm.tiktok.com/").data, ("http://vm.tiktok.com/").data]

/-- `re.search(r"https?://v\.douyin\.com/(\w+)", url)`, returning the capture. -/
def searchPattern1 (url : String) : Option String :=
  (reSearch isWordChar pat1Lits url.data).map List.asString

/-- `re.search(r"https?://www\.douyin\.com/video/(\d+)", url)`, returning the capture. -/
def searchPattern2 (url : String) : Option String :=
  (reSearch isDigitChar pat2Lits url.data).map List.asString

/-- `re.search(r"https?://vm\.tiktok\.com/(\w+)", url)`, returning the capture. -/
def searchPattern3 (url : String) : Option String :=
  (reSearch isWordChar pat3Lits url.data).map List.asString

/-- The fixed detail string of the 400 error raised when no pattern matches
(the adjacent Python string literals concatenated). -/
def invalidUrlDetail : String :=
  "Invalid Douyin URL. Supported formats: " ++
  "1. https://v.douyin.com/ABC123/ " ++
  "2. https://www.douyin.com/video/1234567890123456789 " ++
  "3. https://vm.tiktok.com/ABC123/"

/-- `extract_douyin_id(url)`: apply the three patterns in their listed order,
return the first capture; when no pattern matches, raise HTTP 400 with the
supported-formats message. -/
def extract_douyin_id (url : String) : Except HTTPException String :=
  match searchPattern1 url with
  | some v => .ok v
  | none =>
    match searchPattern2 url with
    | some v => .ok v
    | none =>
      match searchPattern3 url with
      | some v => .ok v
      | none => .error ⟨400, invalidUrlDetail⟩

/-- Outcome of the streaming media GET (`requests.get(media_url, stream=True)`
followed by `raise_for_status`): the full byte body the upstream would serve,
or a `requests.exceptions.RequestException` (connection failure, timeout, or
non-2xx status). -/
inductive MediaResult where
  | ok (body : List UInt8)
  | transportError (msg : String)
deriving Repr

/-- The network environment a request runs in: what the resolver API answers
for a given request URL, and what a media host answers for a given resolved
media URL (the URL is whatever JSON value the resolver returned). -/
structure World where
  resolver : String → FetchResult
  media : Json → MediaResult

/-- One outbound HTTP request issued while handling a download request. -/
inductive NetCall where
  | resolverGet (u : String)
  | mediaGet (u : Json)
deriving Repr

/-- The chunk size passed to `response.iter_content` in the source. -/
def CHUNK_SIZE : Nat := 1024 * 1024

/-- Models `response.iter_content(chunk_size=n)` on a fully known body:
successive blocks of at most `n` bytes whose concatenation is the body. -/
def iterContent (chunkSize : Nat) : List UInt8 → List (List UInt8)
  | [] => []
  | c :: rest =>
    (c :: rest.take (chunkSize - 1)) :: iterContent chunkSize (rest.drop (chunkSize - 1))
termination_by l => l.length
decreasing_by
  simp only [List.length_drop, List.length_cons]
  omega

/-- The media type string chosen for the StreamingResponse. -/
def mediaContentType (media_type : String) : String :=
  if media_type == "video" then "video/mp4" else "audio/mpeg"

/-- The filename extension chosen for the Content-Disposition header. -/
def mediaExt (media_type : String) : String :=
  if media_type == "video" then ".mp4" else ".mp3"

/-- The Content-Disposition header value built by `download_douyin`. -/
def contentDisposition (media_type video_id : String) : String :=
  "attachment; filename=douyin_" ++ media_type ++ "_" ++ video_id ++
    mediaExt media_type

/-- The detail string of the 400 error for an invalid `media_type`. -/
def invalidMediaTypeDetail : String :=
  "Invalid media type. Choose " ++ pyQuote ++ "video" ++ pyQuote ++ " or " ++
    pyQuote ++ "audio" ++ pyQuote

/-- `media_type not in download_urls` / `download_urls[media_type]` on the
dict `{"video": ..., "audio": ...}`: the selected URL, or `none` when the
media type is neither key. -/
def selectUrl (urls : DownloadUrls) (media_type : String) : Option Json :=
  if media_type == "video" then some urls.video
  else if media_type == "audio" then some urls.audio
  else none

/-- The streaming response returned on success: the chunk sequence relayed to
the caller, the response media type, and the Content-Disposition header. -/
structure StreamingResponse where
  chunks : List (List UInt8)
  media_type : String
  content_disposition : String
deriving Repr

/-- Outward result of the `/download` handler: a streaming response, an
`HTTPException` (re-raised as-is by the `except HTTPException` clause), or an
uncaught Python error converted by the final `except Exception` clause to
HTTP 500 "Unexpected error". -/
inductive DownloadResult where
  | stream (r : StreamingResponse)
  | httpExc (e : HTTPException)
  | unexpected (e : PyErr)
deriving Repr

/-- Outward HTTP status of a download result (200 for a delivered stream). -/
def DownloadResult.outwardStatus : DownloadResult → Nat
  | .stream _ => 200
  | .httpExc e => e.status_code
  | .unexpected _ => 500

/-- `download_douyin(url, media_type)`: extract the identifier, resolve the
two URLs (one resolver GET), validate `media_type`, then open the streaming
media GET and relay its body in `CHUNK_SIZE` blocks.  The second component
lists every outbound request issued, in order.  A
`requests.exceptions.RequestException` from the media GET maps to HTTP 504
"Download failed". -/
def download_douyin (url media_type : String) (w : World) :
    DownloadResult × List NetCall :=
  match extract_douyin_id url with
  | .error e => (.httpExc e, [])
  | .ok video_id =>
    match get_download_urls video_id w.resolver with
    | .httpExc e => (.httpExc e, [.resolverGet (api_url video_id)])
    | .pyRaise e => (.unexpected e, [.resolverGet (api_url video_id)])
    | .ok urls =>
      match selectUrl urls media_type with
      | none =>
        (.httpExc ⟨400, invalidMediaTypeDetail⟩, [.resolverGet (api_url video_id)])
      | some media_url =>
        match w.media media_url with
        | .transportError msg =>
          (.httpExc ⟨504, "Download failed: " ++ msg⟩,
           [.resolverGet (api_url video_id), .mediaGet media_url])
        | .ok body =>
          (.stream
            ⟨iterContent CHUNK_SIZE body,
             mediaContentType media_type,
             contentDisposition media_type video_id⟩,
           [.resolverGet (api_url video_id), .mediaGet media_url])

/-! ## Helper lemmas -/

theorem any_key_of_lookupLast (kvs : List (String × Json)) (k : String) :
    ∀ v : Json, lookupLast kvs k = some v →
      kvs.any (fun kv => kv.1 == k) = true := by
  induction kvs with
  | nil => intro v h; simp [lookupLast] at h
  | cons hd tl ih =>
    intro v h
    obtain ⟨k1, v1⟩ := hd
    rw [lookupLast] at h
    rw [List.any_cons]
    cases htl : lookupLast tl k with
    | some r => rw [ih r htl]; simp
    | none =>
      rw [htl] at h
      by_cases hk : (k1 == k) = true
      · rw [hk]; simp
      · simp [hk] at h

theorem containsKey_of_getItem (data : Json) (k : String) (v : Json)
    (h : Json.getItem data k = .ok v) :
    Json.containsKey data k = .ok true := by
  cases data with
  | obj kvs =>
    rw [Json.getItem] at h
    cases hl : lookupLast kvs k with
    | some w => rw [Json.containsKey, any_key_of_lookupLast kvs k w hl]

    | none => rw [hl] at h; exact absurd h (by simp)
  | null => exact absurd h (by simp [Json.getItem])
  | bool b => exact absurd h (by simp [Json.getItem])
  | num n => exact absurd h (by simp [Json.getItem])
  | str s => exact absurd h (by simp [Json.getItem])
  | arr xs => exact absurd h (by simp [Json.getItem])

theorem parse_ok_of_wellformed (data vd v md pu a : Json)
    (hvd : Json.getItem data "video_data" = .ok vd)
    (hv : Json.getItem vd "nwm_video_url" = .ok v)
    (hmd : Json.getItem data "music_data" = .ok md)
    (hpu : Json.getItem md "play_url" = .ok pu)
    (ha : Json.getItem pu "uri" = .ok a) :
    parse_download_urls data = .ok ⟨v, a⟩ := by
  have h1 := containsKey_of_getItem data "video_data" vd hvd
  have h2 := containsKey_of_getItem data "music_data" md hmd
  simp only [parse_download_urls, h1, h2, hvd, hv, hmd, hpu, ha]

theorem parse_ok_inverse (data : Json) (urls : DownloadUrls)
    (h : parse_download_urls data = .ok urls) :
    ∃ vd md pu, Json.getItem data "video_data" = .ok vd ∧
      Json.getItem vd "nwm_video_url" = .ok urls.video ∧
      Json.getItem data "music_data" = .ok md ∧
      Json.getItem md "play_url" = .ok pu ∧
      Json.getItem pu "uri" = .ok urls.audio := by
  unfold parse_download_urls at h
  split at h
  · exact absurd h (by simp)
  · exact absurd h (by simp)
  · split at h
    · exact absurd h (by simp)
    · exact absurd h (by simp)
    · split at h
      · exact absurd h (by simp)
      · split at h
        · exact absurd h (by simp)
        · split at h
          · exact absurd h (by simp)
          · split at h
            · exact absurd h (by simp)
            · split at h
              · exact absurd h (by simp)
              · cases h
                exact ⟨_, _, _, by assumption, by assumption, by assumption,
                  by assumption, by assumption⟩

/-! ## Claim theorems: identifier extraction -/

/-- C4: for every input matched by at least one of the three patterns,
`extract_douyin_id` returns the capture of the first pattern, in the fixed
listed order, that matches; the three supported share-link shapes each yield
the expected identifier (see the witness for the three concrete shapes). -/
theorem extract_first_matching_pattern (url : String) :
    (∀ t, searchPattern1 url = some t → extract_douyin_id url = .ok t) ∧
    (searchPattern1 url = none →
      ∀ t, searchPattern2 url = some t → extract_douyin_id url = .ok t) ∧
    (searchPattern1 url = none → searchPattern2 url = none →
      ∀ t, searchPattern3 url = some t → extract_douyin_id url = .ok t) := by
  refine ⟨?_, ?_, ?_⟩
  · intro t h1
    simp only [extract_douyin_id, h1]
  · intro h1 t h2
    simp only [extract_douyin_id, h1, h2]
  · intro h1 h2 t h3
    simp only [extract_douyin_id, h1, h2, h3]

/-- Witness for C4: the three supported URL shapes return the expected
identifiers through the respective first matching pattern. -/
theorem extract_first_matching_pattern_witness :
    extract_douyin_id "https://v.douyin.com/ABC123/" = .ok "ABC123" ∧
    extract_douyin_id "https://www.douyin.com/video/1234567890123456789" =
      .ok "1234567890123456789" ∧
    extract_douyin_id "https://vm.tiktok.com/XYZ789/" = .ok "XYZ789" :=
  ⟨(extract_first_matching_pattern "https://v.douyin.com/ABC123/").1 _ rfl,
   (extract_first_matching_pattern
      "https://www.douyin.com/video/1234567890123456789").2.1 rfl _ rfl,
   (extract_first_matching_pattern "https://vm.tiktok.com/XYZ789/").2.2
      rfl rfl _ rfl⟩

/-- C5: when no pattern matches, `extract_douyin_id` raises HTTP 400 whose
detail message contains each of the three supported URL shapes. -/
theorem extract_no_match_raises_400 (url : String)
    (h1 : searchPattern1 url = none)
    (h2 : searchPattern2 url = none)
    (h3 : searchPattern3 url = none) :
    extract_douyin_id url = .error ⟨400, invalidUrlDetail⟩ ∧
    isInfixB ("https://v.douyin.com/ABC123/").data invalidUrlDetail.data = true ∧
    isInfixB ("https://www.douyin.com/video/1234567890123456789").data
      invalidUrlDetail.data = true ∧
    isInfixB ("https://vm.tiktok.com/ABC123/").data invalidUrlDetail.data = true := by
  refine ⟨?_, by decide, by decide, by decide⟩
  simp only [extract_douyin_id, h1, h2, h3]

/-- Witness for C5: a string matching no pattern gets the 400 error. -/
theorem extract_no_match_raises_400_witness :
    extract_douyin_id "not-a-douyin-url" = .error ⟨400, invalidUrlDetail⟩ ∧
    isInfixB ("https://v.douyin.com/ABC123/").data invalidUrlDetail.data = true ∧
    isInfixB ("https://www.douyin.com/video/1234567890123456789").data
      invalidUrlDetail.data = true ∧
    isInfixB ("https://vm.tiktok.com/ABC123/").data invalidUrlDetail.data = true :=
  extract_no_match_raises_400 "not-a-douyin-url" rfl rfl rfl

/-! ## Claim theorems: resolver client -/

/-- C3: given an upstream JSON response with both required top-level keys and
well-formed nested fields, `get_download_urls` returns exactly the nested
`nwm_video_url` value as the video URL and the nested `play_url.uri` value as
the audio URL. -/
theorem resolve_returns_exact_nested_urls (vid : String)
    (resolver : String → FetchResult) (data vd v md pu a : Json)
    (hres : resolver (api_url vid) = .ok data)
    (hvd : Json.getItem data "video_data" = .ok vd)
    (hv : Json.getItem vd "nwm_video_url" = .ok v)
    (hmd : Json.getItem data "music_data" = .ok md)
    (hpu : Json.getItem md "play_url" = .ok pu)
    (ha : Json.getItem pu "uri" = .ok a) :
    get_download_urls vid resolver = .ok ⟨v, a⟩ := by
  simp only [get_download_urls, hres,
    parse_ok_of_wellformed data vd v md pu a hvd hv hmd hpu ha]

/-- Witness for C3 on a canned upstream JSON response. -/
theorem resolve_returns_exact_nested_urls_witness :
    get_download_urls "7001"
      (fun _ => .ok (Json.obj
        [("video_data", Json.obj [("nwm_video_url", Json.str "https://cdn.example/v.mp4")]),
         ("music_data", Json.obj
           [("play_url", Json.obj [("uri", Json.str "https://cdn.example/a.mp3")])])])) =
      .ok ⟨Json.str "https://cdn.example/v.mp4", Json.str "https://cdn.example/a.mp3"⟩ :=
  resolve_returns_exact_nested_urls "7001" _ _ _ _ _ _ _ rfl rfl rfl rfl rfl rfl

/-- C2 counterexample: an upstream response whose nested video URL is present
but is the EMPTY string is not rejected: `get_download_urls` returns it as-is
instead of failing with a 502 error, refuting the claim that an empty-string
URL value is rejected. -/
theorem resolve_accepts_empty_url_cex :
    get_download_urls "7002"
      (fun _ => .ok (Json.obj
        [("video_data", Json.obj [("nwm_video_url", Json.str "")]),
         ("music_data", Json.obj
           [("play_url", Json.obj [("uri", Json.str "https://cdn.example/a.mp3")])])])) =
      .ok ⟨Json.str "", Json.str "https://cdn.example/a.mp3"⟩ := rfl

/-- C2 (amended): for an upstream JSON object response, a missing top-level
key or a missing nested key (within object envelopes) makes
`get_download_urls` fail with HTTP 502, and a successful result is never
partial: both fields equal the full nested lookups.  Empty-string URL values
are not rejected (see the counterexample). -/
theorem resolve_missing_key_fails_502 (vid : String)
    (resolver : String → FetchResult) (kvs : List (String × Json))
    (hres : resolver (api_url vid) = .ok (Json.obj kvs)) :
    ((kvs.any (fun kv => kv.1 == "video_data") = false ∨
      kvs.any (fun kv => kv.1 == "music_data") = false) →
      get_download_urls vid resolver =
        .httpExc ⟨502, "API response error: Invalid API response structure"⟩) ∧
    (∀ vkvs, lookupLast kvs "video_data" = some (Json.obj vkvs) →
      kvs.any (fun kv => kv.1 == "music_data") = true →
      lookupLast vkvs "nwm_video_url" = none →
      get_download_urls vid resolver =
        .httpExc ⟨502, "API response error: " ++ keyErrorStr "nwm_video_url"⟩) ∧
    (∀ vkvs v mkvs, lookupLast kvs "video_data" = some (Json.obj vkvs) →
      lookupLast vkvs "nwm_video_url" = some v →
      lookupLast kvs "music_data" = some (Json.obj mkvs) →
      lookupLast mkvs "play_url" = none →
      get_download_urls vid resolver =
        .httpExc ⟨502, "API response error: " ++ keyErrorStr "play_url"⟩) ∧
    (∀ vkvs v mkvs pkvs, lookupLast kvs "video_data" = some (Json.obj vkvs) →
      lookupLast vkvs "nwm_video_url" = some v →
      lookupLast kvs "music_data" = some (Json.obj mkvs) →
      lookupLast mkvs "play_url" = some (Json.obj pkvs) →
      lookupLast pkvs "uri" = none →
      get_download_urls vid resolver =
        .httpExc ⟨502, "API response error: " ++ keyErrorStr "uri"⟩) ∧
    (∀ urls, get_download_urls vid resolver = .ok urls →
      ∃ vd md pu, Json.getItem (Json.obj kvs) "video_data" = .ok vd ∧
        Json.getItem vd "nwm_video_url" = .ok urls.video ∧
        Json.getItem (Json.obj kvs) "music_data" = .ok md ∧
        Json.getItem md "play_url" = .ok pu ∧
        Json.getItem pu "uri" = .ok urls.audio) := by
  refine ⟨?_, ?_, ?_, ?_, ?_⟩
  · intro hmiss
    have hparse : parse_download_urls (Json.obj kvs) =
        .error (.valueError "Invalid API response structure") := by
      rcases hmiss with hv | hm
      · simp only [parse_download_urls, Json.containsKey, hv]
      · cases hv2 : kvs.any (fun kv => kv.1 == "video_data") with
        | false => simp only [parse_download_urls, Json.containsKey, hv2]
        | true => simp only [parse_download_urls, Json.containsKey, hv2, hm]
    simp only [get_download_urls, hres, hparse]
    rfl
  · intro vkvs hvd hm hnwm
    have hvany := any_key_of_lookupLast kvs "video_data" (Json.obj vkvs) hvd
    have hparse : parse_download_urls (Json.obj kvs) =
        .error (.keyError "nwm_video_url") := by
      simp only [parse_download_urls, Json.containsKey, hvany, hm,
        Json.getItem, hvd, hnwm]
    simp only [get_download_urls, hres, hparse]
  · intro vkvs v mkvs hvd hnwm hmd hpu
    have hvany := any_key_of_lookupLast kvs "video_data" (Json.obj vkvs) hvd
    have hmany := any_key_of_lookupLast kvs "music_data" (Json.obj mkvs) hmd
    have hparse : parse_download_urls (Json.obj kvs) =
        .error (.keyError "play_url") := by
      simp only [parse_download_urls, Json.containsKey, hvany, hmany,
        Json.getItem, hvd, hnwm, hmd, hpu]
    simp only [get_download_urls, hres, hparse]
  · intro vkvs v mkvs pkvs hvd hnwm hmd hpu huri
    have hvany := any_key_of_lookupLast kvs "video_data" (Json.obj vkvs) hvd
    have hmany := any_key_of_lookupLast kvs "music_data" (Json.obj mkvs) hmd
    have hparse : parse_download_urls (Json.obj kvs) =
        .error (.keyError "uri") := by
      simp only [parse_download_urls, Json.containsKey, hvany, hmany,
        Json.getItem, hvd, hnwm, hmd, hpu, huri]
    simp only [get_download_urls, hres, hparse]
  · intro urls hok
    simp only [get_download_urls, hres] at hok
    cases hp : parse_download_urls (Json.obj kvs) with
    | ok u =>
      rw [hp] at hok
      cases hok
      exact parse_ok_inverse _ _ hp
    | error e =>
      rw [hp] at hok
      cases e with
      | keyError k => exact absurd hok (by simp)
      | valueError m => exact absurd hok (by simp)
      | typeError => exact absurd hok (by simp)

/-- Witness for C2 (amended): a response missing both top-level keys gets the
502 structure error. -/
theorem resolve_missing_key_fails_502_witness :
    get_download_urls "7003" (fun _ => .ok (Json.obj [])) =
      .httpExc ⟨502, "API response error: Invalid API response structure"⟩ :=
  (resolve_missing_key_fails_502 "7003" _ [] rfl).1 (Or.inl rfl)

/-! ## Claim theorems: download handler -/

/-- A network environment whose resolver returns a well-formed response and
whose media hosts serve a small body, used to instantiate handler theorems. -/
def goodWorld : World where
  resolver := fun _ => .ok (Json.obj
    [("video_data", Json.obj [("nwm_video_url", Json.str "https://cdn.example/v.mp4")]),
     ("music_data", Json.obj
       [("play_url", Json.obj [("uri", Json.str "https://cdn.example/a.mp3")])])])
  media := fun _ => .ok [1, 2, 3]

/-- Like `goodWorld` but every media host times out. -/
def timeoutWorld : World where
  resolver := goodWorld.resolver
  media := fun _ => .transportError "timed out"

/-- C1 counterexample: a download request with `media_type=bogus` does return
the 400 error naming the two accepted values, but only AFTER a network call
to the resolver: the issued-request log of the very same request contains the
resolver GET, refuting "no network call is attempted to the resolver". -/
theorem download_bad_media_type_calls_resolver_cex :
    (download_douyin "https://v.douyin.com/ABC/" "bogus" goodWorld).1 =
      .httpExc ⟨400, invalidMediaTypeDetail⟩ ∧
    (download_douyin "https://v.douyin.com/ABC/" "bogus" goodWorld).2 =
      [.resolverGet (api_url "ABC")] ∧
    [NetCall.resolverGet (api_url "ABC")] ≠ [] :=
  ⟨rfl, rfl, by simp⟩

/-- C1 (amended): when `media_type` is neither "video" nor "audio" and the
extraction and resolution stages succeed, the handler fails with HTTP 400
naming the two accepted values; exactly one resolver call (and no media-host
call) is attempted before that failure. -/
theorem download_bad_media_type_400_after_resolve
    (url media_type : String) (w : World) (video_id : String) (urls : DownloadUrls)
    (hmt1 : media_type ≠ "video") (hmt2 : media_type ≠ "audio")
    (hex : extract_douyin_id url = .ok video_id)
    (hres : get_download_urls video_id w.resolver = .ok urls) :
    download_douyin url media_type w =
      (.httpExc ⟨400, invalidMediaTypeDetail⟩,
       [.resolverGet (api_url video_id)]) := by
  have hb1 : (media_type == "video") = false := by simpa using hmt1
  have hb2 : (media_type == "audio") = false := by simpa using hmt2
  have hsel : selectUrl urls media_type = none := by
    simp [selectUrl, hb1, hb2]
  simp only [download_douyin, hex, hres, hsel]

/-- Witness for C1 (amended). -/
theorem download_bad_media_type_400_after_resolve_witness :
    download_douyin "https://v.douyin.com/ABC/" "gif" goodWorld =
      (.httpExc ⟨400, invalidMediaTypeDetail⟩, [.resolverGet (api_url "ABC")]) :=
  download_bad_media_type_400_after_resolve "https://v.douyin.com/ABC/" "gif"
    goodWorld "ABC"
    ⟨Json.str "https://cdn.example/v.mp4", Json.str "https://cdn.example/a.mp3"⟩
    (by decide) (by decide) rfl rfl

/-- C6: every `HTTPException` failure of the resolution stage carries status
502; a transport failure of the media-fetch stage maps to status 504 with the
"Download failed" detail; the two statuses are distinct. -/
theorem media_fetch_504_resolution_502 :
    (∀ vid resolver e, get_download_urls vid resolver = .httpExc e →
      e.status_code = 502) ∧
    (∀ url mt (w : World) vid urls murl msg,
      extract_douyin_id url = .ok vid →
      get_download_urls vid w.resolver = .ok urls →
      selectUrl urls mt = some murl →
      w.media murl = .transportError msg →
      download_douyin url mt w =
        (.httpExc ⟨504, "Download failed: " ++ msg⟩,
         [.resolverGet (api_url vid), .mediaGet murl])) ∧
    (504 : Nat) ≠ 502 := by
  refine ⟨?_, ?_, by decide⟩
  · intro vid resolver e h
    unfold get_download_urls at h
    split at h
    · cases h
      rfl
    · split at h
      · cases h
      · cases h
        rfl
      · cases h
        rfl
      · cases h
  · intro url mt w vid urls murl msg hex hres hsel hmed
    simp only [download_douyin, hex, hres, hsel, hmed]

/-- Witness for C6: a resolver transport error surfaces as 502, a media-host
timeout surfaces as 504 on the full download path. -/
theorem media_fetch_504_resolution_502_witness :
    (HTTPException.mk 502 ("API request failed: " ++ "boom")).status_code = 502 ∧
    download_douyin "https://v.douyin.com/ABC/" "video" timeoutWorld =
      (.httpExc ⟨504, "Download failed: " ++ "timed out"⟩,
       [.resolverGet (api_url "ABC"), .mediaGet (Json.str "https://cdn.example/v.mp4")]) :=
  ⟨media_fetch_504_resolution_502.1 "1" (fun _ => .transportError "boom") _ rfl,
   media_fetch_504_resolution_502.2.1 "https://v.douyin.com/ABC/" "video"
     timeoutWorld "ABC"
     ⟨Json.str "https://cdn.example/v.mp4", Json.str "https://cdn.example/a.mp3"⟩
     (Json.str "https://cdn.example/v.mp4") "timed out" rfl rfl rfl rfl⟩

/-- C10: for every request whose extraction stage yields an identifier, the
first (and only) resolver request of the download handler is the fixed
canonical-URL template interpolated with that identifier, regardless of which
pattern matched the input. -/
theorem resolver_url_fixed_template (url mt : String) (w : World) (vid : String)
    (hex : extract_douyin_id url = .ok vid) :
    api_url vid =
      "https://api.douyin.wtf/api?url=https://www.douyin.com/video/" ++ vid ∧
    (download_douyin url mt w).2.head? =
      some (.resolverGet
        ("https://api.douyin.wtf/api?url=https://www.douyin.com/video/" ++ vid)) := by
  refine ⟨rfl, ?_⟩
  simp only [download_douyin, hex]
  split
  · rfl
  · rfl
  · split
    · rfl
    · split
      · rfl
      · rfl

/-- Witness for C10, on a vm.tiktok.com short link. -/
theorem resolver_url_fixed_template_witness :
    api_url "ZM8abc" =
      "https://api.douyin.wtf/api?url=https://www.douyin.com/video/" ++ "ZM8abc" ∧
    (download_douyin "https://vm.tiktok.com/ZM8abc/" "video" goodWorld).2.head? =
      some (.resolverGet
        ("https://api.douyin.wtf/api?url=https://www.douyin.com/video/" ++ "ZM8abc")) :=
  resolver_url_fixed_template "https://vm.tiktok.com/ZM8abc/" "video" goodWorld
    "ZM8abc" rfl

/-- C7 counterexample: on a concrete successful video download the generated
filename is `douyin_video_ABC.mp4`, so the attachment header differs from
`attachment; filename=` followed by the claimed `{media_type}_{video_id}`
filename (`video_ABC.mp4`): the code prepends a `douyin_` head to the
filename. -/
theorem stream_filename_douyin_prefix_cex :
    (download_douyin "https://v.douyin.com/ABC/" "video" goodWorld).1 =
      .stream ⟨iterContent CHUNK_SIZE [1, 2, 3], "video/mp4",
        "attachment; filename=douyin_video_ABC.mp4"⟩ ∧
    ("attachment; filename=douyin_video_ABC.mp4" : String) ≠
      "attachment; filename=" ++ ("video" ++ "_" ++ "ABC" ++ ".mp4") :=
  ⟨rfl, by decide⟩

/-- C7 (amended): every delivered stream carries content type `video/mp4` for
a video request and `audio/mpeg` for an audio request, and its
Content-Disposition attachment header carries the generated filename
`douyin_{media_type}_{video_id}` followed by the `.mp4` / `.mp3` extension. -/
theorem stream_content_type_and_filename
    (url mt : String) (w : World) (r : StreamingResponse) (calls : List NetCall)
    (vid : String)
    (hex : extract_douyin_id url = .ok vid)
    (hdl : download_douyin url mt w = (.stream r, calls)) :
    (mt = "video" ∧ r.media_type = "video/mp4" ∧
      r.content_disposition =
        "attachment; filename=" ++ ("douyin_" ++ "video" ++ "_" ++ vid ++ ".mp4")) ∨
    (mt = "audio" ∧ r.media_type = "audio/mpeg" ∧
      r.content_disposition =
        "attachment; filename=" ++ ("douyin_" ++ "audio" ++ "_" ++ vid ++ ".mp3")) := by
  simp only [download_douyin, hex] at hdl
  split at hdl
  · exact absurd hdl (by simp)
  · exact absurd hdl (by simp)
  · split at hdl
    · exact absurd hdl (by simp)
    · rename_i urls hg murl hsel
      split at hdl
      · exact absurd hdl (by simp)
      · cases hdl
        by_cases hv : (mt == "video") = true
        · have hmt : mt = "video" := by simpa using hv
          subst hmt
          left
          refine ⟨rfl, rfl, ?_⟩
          show contentDisposition "video" vid = _
          simp [contentDisposition, mediaExt, String.append_assoc]
          rw [show ("attachment; filename=douyin_video_" : String) =
            "attachment; filename=" ++ "douyin_video_" from rfl,
            String.append_assoc]
        · have hvf : (mt == "video") = false := by simpa using hv
          have haud : (mt == "audio") = true := by
            by_contra hac
            have haf : (mt == "audio") = false := by simpa using hac
            simp [selectUrl, hvf, haf] at hsel
          have hmt : mt = "audio" := by simpa using haud
          subst hmt
          right
          refine ⟨rfl, rfl, ?_⟩
          show contentDisposition "audio" vid = _
          simp [contentDisposition, mediaExt, String.append_assoc]
          rw [show ("attachment; filename=douyin_audio_" : String) =
            "attachment; filename=" ++ "douyin_audio_" from rfl,
            String.append_assoc]

/-- Witness for C7 (amended) on a concrete successful video download. -/
theorem stream_content_type_and_filename_witness :
    ("video" = "video" ∧
      (⟨iterContent CHUNK_SIZE [1, 2, 3], mediaContentType "video",
        contentDisposition "video" "ABC"⟩ : StreamingResponse).media_type =
        "video/mp4" ∧
      (⟨iterContent CHUNK_SIZE [1, 2, 3], mediaContentType "video",
        contentDisposition "video" "ABC"⟩ : StreamingResponse).content_disposition =
        "attachment; filename=" ++ ("douyin_" ++ "video" ++ "_" ++ "ABC" ++ ".mp4")) ∨
    ("video" = "audio" ∧
      (⟨iterContent CHUNK_SIZE [1, 2, 3], mediaContentType "video",
        contentDisposition "video" "ABC"⟩ : StreamingResponse).media_type =
        "audio/mpeg" ∧
      (⟨iterContent CHUNK_SIZE [1, 2, 3], mediaContentType "video",
        contentDisposition "video" "ABC"⟩ : StreamingResponse).content_disposition =
        "attachment; filename=" ++ ("douyin_" ++ "audio" ++ "_" ++ "ABC" ++ ".mp3")) :=
  stream_content_type_and_filename "https://v.douyin.com/ABC/" "video" goodWorld
    ⟨iterContent CHUNK_SIZE [1, 2, 3], mediaContentType "video",
      contentDisposition "video" "ABC"⟩
    [.resolverGet (api_url "ABC"), .mediaGet (Json.str "https://cdn.example/v.mp4")]
    "ABC" rfl rfl

/-! ## Chunking lemmas -/

theorem iterContent_flatten (n : Nat) (l : List UInt8) :
    (iterContent n l).flatten = l :=
  match l with
  | [] => by simp [iterContent]
  | c :: rest => by
    rw [iterContent, List.flatten_cons, iterContent_flatten n (rest.drop (n - 1))]
    rw [List.cons_append, List.take_append_drop]
termination_by l.length
decreasing_by
  simp only [List.length_drop, List.length_cons]
  omega

theorem iterContent_chunk_le (n : Nat) (hn : 1 ≤ n) (l : List UInt8) :
    ∀ c ∈ iterContent n l, c.length ≤ n :=
  match l with
  | [] => by simp [iterContent]
  | x :: rest => by
    intro c hc
    rw [iterContent] at hc
    rcases List.mem_cons.mp hc with h | h
    · subst h
      have ht : (rest.take (n - 1)).length ≤ n - 1 := by
        rw [List.length_take]
        exact min_le_left _ _
      simp only [List.length_cons]
      omega
    · exact iterContent_chunk_le n hn (rest.drop (n - 1)) c h
termination_by l.length
decreasing_by
  simp only [List.length_drop, List.length_cons]
  omega

/-- C8: every delivered stream is the source media body cut into blocks of at
most 1 MiB (1024*1024 bytes), and the concatenation of the relayed chunks is
byte-for-byte the body the media host served. -/
theorem stream_chunks_bounded_and_complete
    (url mt : String) (w : World) (r : StreamingResponse) (calls : List NetCall)
    (hdl : download_douyin url mt w = (.stream r, calls)) :
    (∃ murl body, w.media murl = .ok body ∧
      r.chunks = iterContent CHUNK_SIZE body ∧ r.chunks.flatten = body) ∧
    ∀ c ∈ r.chunks, c.length ≤ 1024 * 1024 := by
  unfold download_douyin at hdl
  split at hdl
  · exact absurd hdl (by simp)
  · split at hdl
    · exact absurd hdl (by simp)
    · exact absurd hdl (by simp)
    · split at hdl
      · exact absurd hdl (by simp)
      · split at hdl
        · exact absurd hdl (by simp)
        · rename_i body hmed
          cases hdl
          constructor
          · exact ⟨_, body, hmed, rfl, iterContent_flatten _ _⟩
          · intro c hc
            exact iterContent_chunk_le CHUNK_SIZE (by decide) body c hc

/-- Witness for C8 on a concrete delivered stream. -/
theorem stream_chunks_bounded_and_complete_witness :
    (∃ murl body, goodWorld.media murl = .ok body ∧
      (⟨iterContent CHUNK_SIZE [1, 2, 3], mediaContentType "video",
        contentDisposition "video" "ABC"⟩ : StreamingResponse).chunks =
        iterContent CHUNK_SIZE body ∧
      (⟨iterContent CHUNK_SIZE [1, 2, 3], mediaContentType "video",
        contentDisposition "video" "ABC"⟩ : StreamingResponse).chunks.flatten =
        body) ∧
    ∀ c ∈ (⟨iterContent CHUNK_SIZE [1, 2, 3], mediaContentType "video",
        contentDisposition "video" "ABC"⟩ : StreamingResponse).chunks,
      c.length ≤ 1024 * 1024 :=
  stream_chunks_bounded_and_complete "https://v.douyin.com/ABC/" "video" goodWorld
    ⟨iterContent CHUNK_SIZE [1, 2, 3], mediaContentType "video",
      contentDisposition "video" "ABC"⟩
    [.resolverGet (api_url "ABC"), .mediaGet (Json.str "https://cdn.example/v.mp4")]
    rfl

/-! ## Search-anywhere lemmas -/

theorem stripLit_append (p cs suf r : List Char) (h : stripLit p cs = some r) :
    stripLit p (cs ++ suf) = some (r ++ suf) := by
  induction p generalizing cs r with
  | nil =>
    simp only [stripLit, Option.some.injEq] at h
    subst h
    simp [stripLit]
  | cons a ps ih =>
    cases cs with
    | nil => exact absurd h (by simp [stripLit])
    | cons c cs2 =>
      rw [List.cons_append]
      rw [stripLit] at h ⊢
      by_cases hac : (a == c) = true
      · rw [if_pos hac] at h ⊢
        exact ih cs2 r h
      · rw [if_neg (by simp [hac])] at h
        exact absurd h (by simp)

theorem takeWhile_append_ne_nil (p : Char → Bool) (cs suf : List Char)
    (h : cs.takeWhile p ≠ []) : (cs ++ suf).takeWhile p ≠ [] := by
  cases cs with
  | nil => simp at h
  | cons c cs2 =>
    by_cases hp : p c = true
    · simp [List.takeWhile_cons, hp]
    · simp [List.takeWhile_cons, hp] at h

theorem matchAtPos_append_isSome (wordP : Char → Bool) (pres : List (List Char))
    (cs suf t : List Char) (h : matchAtPos wordP pres cs = some t) :
    (matchAtPos wordP pres (cs ++ suf)).isSome = true := by
  induction pres with
  | nil => simp [matchAtPos] at h
  | cons p ps ih =>
    rw [matchAtPos] at h
    rw [matchAtPos]
    cases hsp : stripLit p cs with
    | none =>
      simp only [hsp] at h
      cases hsp2 : stripLit p (cs ++ suf) with
      | none => simp only [hsp2]; exact ih h
      | some rest2 =>
        simp only [hsp2]
        cases htw : rest2.takeWhile wordP with
        | nil => simp only [htw]; exact ih h
        | cons x xs => simp only [htw, Option.isSome_some]
    | some rest =>
      simp only [hsp] at h
      have hsp2 := stripLit_append p cs suf rest hsp
      simp only [hsp2]
      cases htw : rest.takeWhile wordP with
      | nil =>
        simp only [htw] at h
        cases htw2 : (rest ++ suf).takeWhile wordP with
        | nil => simp only [htw2]; exact ih h
        | cons y ys => simp only [htw2, Option.isSome_some]
      | cons x xs =>
        have hne : (rest ++ suf).takeWhile wordP ≠ [] :=
          takeWhile_append_ne_nil wordP rest suf (by simp [htw])
        cases htw2 : (rest ++ suf).takeWhile wordP with
        | nil => exact absurd htw2 hne
        | cons y ys => simp only [htw2, Option.isSome_some]

theorem reSearch_append_isSome (wordP : Char → Bool) (pres : List (List Char))
    (cs suf t : List Char) (h : reSearch wordP pres cs = some t) :
    (reSearch wordP pres (cs ++ suf)).isSome = true := by
  induction cs with
  | nil =>
    rw [reSearch] at h
    rw [List.nil_append]
    have h2 := matchAtPos_append_isSome wordP pres [] suf t h
    rw [List.nil_append] at h2
    cases suf with
    | nil => rw [reSearch]; exact h2
    | cons s ss =>
      rw [reSearch]
      cases hm : matchAtPos wordP pres (s :: ss) with
      | none => rw [hm] at h2; simp at h2
      | some u => simp only [hm, Option.isSome_some]
  | cons c cs2 ih =>
    rw [List.cons_append, reSearch]
    rw [reSearch] at h
    cases hm : matchAtPos wordP pres (c :: cs2) with
    | some u =>
      have h2 := matchAtPos_append_isSome wordP pres (c :: cs2) suf u hm
      rw [List.cons_append] at h2
      cases hm2 : matchAtPos wordP pres (c :: (cs2 ++ suf)) with
      | none => rw [hm2] at h2; simp at h2
      | some v => simp only [hm2, Option.isSome_some]
    | none =>
      simp only [hm] at h
      cases hm2 : matchAtPos wordP pres (c :: (cs2 ++ suf)) with
      | some v => simp only [hm2, Option.isSome_some]
      | none => simp only [hm2]; exact ih h

theorem reSearch_prepend_isSome (wordP : Char → Bool) (pres : List (List Char))
    (pre cs : List Char) (h : (reSearch wordP pres cs).isSome = true) :
    (reSearch wordP pres (pre ++ cs)).isSome = true := by
  induction pre with
  | nil => simpa using h
  | cons p ps ih =>
    rw [List.cons_append, reSearch]
    cases hm : matchAtPos wordP pres (p :: (ps ++ cs)) with
    | some u => simp only [hm, Option.isSome_some]
    | none => simp only [hm]; exact ih

theorem isSome_map_asString (o : Option (List Char)) :
    (o.map List.asString).isSome = o.isSome := by
  cases o <;> rfl

theorem reSearch_embed_isSome (wordP : Char → Bool) (pres : List (List Char))
    (pre s suf : String) (h : (reSearch wordP pres s.data).isSome = true) :
    (reSearch wordP pres (pre ++ s ++ suf).data).isSome = true := by
  obtain ⟨t, ht⟩ := Option.isSome_iff_exists.mp h
  have h1 := reSearch_append_isSome wordP pres s.data suf.data t ht
  have h2 := reSearch_prepend_isSome wordP pres pre.data (s.data ++ suf.data) h1
  have hdata : (pre ++ s ++ suf).data = pre.data ++ (s.data ++ suf.data) := by
    simp [String.data_append, List.append_assoc]
  rw [hdata]
  exact h2

/-- C9: the patterns are applied with search (not anchored-at-start)
semantics: whenever a string contains, as a substring, any text one of the
three patterns matches, `extract_douyin_id` on the surrounding string
succeeds; and every successful extraction is the capture of the
earliest-listed pattern that matches anywhere in the full input. -/
theorem extract_finds_link_inside_text (pre s suf : String)
    (h : (searchPattern1 s).isSome = true ∨ (searchPattern2 s).isSome = true ∨
      (searchPattern3 s).isSome = true) :
    (∃ t, extract_douyin_id (pre ++ s ++ suf) = .ok t) ∧
    (∀ u t, extract_douyin_id u = .ok t →
      searchPattern1 u = some t ∨
      (searchPattern1 u = none ∧
        (searchPattern2 u = some t ∨
          (searchPattern2 u = none ∧ searchPattern3 u = some t)))) := by
  constructor
  · have hbig : (searchPattern1 (pre ++ s ++ suf)).isSome = true ∨
        (searchPattern2 (pre ++ s ++ suf)).isSome = true ∨
        (searchPattern3 (pre ++ s ++ suf)).isSome = true := by
      rcases h with h1 | h2 | h3
      · left
        rw [searchPattern1, isSome_map_asString] at h1 ⊢
        exact reSearch_embed_isSome isWordChar pat1Lits pre s suf h1
      · right; left
        rw [searchPattern2, isSome_map_asString] at h2 ⊢
        exact reSearch_embed_isSome isDigitChar pat2Lits pre s suf h2
      · right; right
        rw [searchPattern3, isSome_map_asString] at h3 ⊢
        exact reSearch_embed_isSome isWordChar pat3Lits pre s suf h3
    cases hp1 : searchPattern1 (pre ++ s ++ suf) with
    | some t => exact ⟨t, by simp only [extract_douyin_id, hp1]⟩
    | none =>
      cases hp2 : searchPattern2 (pre ++ s ++ suf) with
      | some t => exact ⟨t, by simp only [extract_douyin_id, hp1, hp2]⟩
      | none =>
        cases hp3 : searchPattern3 (pre ++ s ++ suf) with
        | some t => exact ⟨t, by simp only [extract_douyin_id, hp1, hp2, hp3]⟩
        | none =>
          exfalso
          rcases hbig with hb | hb | hb
          · rw [hp1] at hb; simp at hb
          · rw [hp2] at hb; simp at hb
          · rw [hp3] at hb; simp at hb
  · intro u t hu
    unfold extract_douyin_id at hu
    cases hp1 : searchPattern1 u with
    | some v =>
      simp only [hp1, Except.ok.injEq] at hu
      subst hu
      exact Or.inl rfl
    | none =>
      simp only [hp1] at hu
      cases hp2 : searchPattern2 u with
      | some v =>
        simp only [hp2, Except.ok.injEq] at hu
        subst hu
        exact Or.inr ⟨rfl, Or.inl rfl⟩
      | none =>
        simp only [hp2] at hu
        cases hp3 : searchPattern3 u with
        | some v =>
          simp only [hp3, Except.ok.injEq] at hu
          subst hu
          exact Or.inr ⟨rfl, Or.inr ⟨rfl, rfl⟩⟩
        | none =>
          simp only [hp3] at hu
          exact absurd hu (by simp)

/-- Witness for C9: a share link embedded in surrounding share text is still
extracted, and a concrete successful extraction comes from the first
matching pattern. -/
theorem extract_finds_link_inside_text_witness :
    (∃ t, extract_douyin_id
      ("7.43 pda:/ 复制打开抖音 " ++ "https://v.douyin.com/iAbC12/" ++ " 看看作品")
        = .ok t) ∧
    (searchPattern1 "x https://v.douyin.com/QQ9/" = some "QQ9" ∨
      (searchPattern1 "x https://v.douyin.com/QQ9/" = none ∧
        (searchPattern2 "x https://v.douyin.com/QQ9/" = some "QQ9" ∨
          (searchPattern2 "x https://v.douyin.com/QQ9/" = none ∧
            searchPattern3 "x https://v.douyin.com/QQ9/" = some "QQ9")))) :=
  ⟨(extract_finds_link_inside_text "7.43 pda:/ 复制打开抖音 "
      "https://v.douyin.com/iAbC12/" " 看看作品" (Or.inl rfl)).1,
   (extract_finds_link_inside_text "7.43 pda:/ 复制打开抖音 "
      "https://v.douyin.com/iAbC12/" " 看看作品" (Or.inl rfl)).2
      "x https://v.douyin.com/QQ9/" "QQ9" rfl⟩
